import Mathlib

/-!
Verification of the decision-and-mitigation engine of the Synapse-X
cloud threat detection service (src/app.py).

The engine is embedded shallowly:

* Python values occurring in request payloads are modelled by `PyVal`
  (numbers as rationals, strings, dicts, and otherwise-uninspected
  objects), and the fallible Python operations the code performs on
  them (`.lower()`, `.upper()`, `>` comparison, division, `==`)
  return `Except PyError`.
* The rule-based classifier that appears identically in
  `handle_request` (lines 81-121) and `trigger_payload`
  (lines 381-419) is embedded twice, at two levels of abstraction:
  `classifyPayload` works on the raw key/value payload with the
  genuine fallible Python semantics, and `classifyRecord` works on a
  fully-typed `FeatureRecord` (the result of normalization).
* The mitigation ledger (`mitigate`, `is_blocked`) lives in
  `mitigation/actions.py`, which is not part of the sources at hand;
  those two operations are modelled from the specification (sections
  4.3 and 4.4), as marked in their doc comments.
* `decideRequest` is the decision orchestrator: the blocked-source
  short-circuit, classification, and mitigation exactly as in the
  body of `trigger_payload` (lines 374-459) and in the intended body
  of `handle_request` (lines 74-146).
* `handle_request` itself is embedded with Python's name-resolution
  semantics for its first statement, `payload["src_ip"] = src_ip`
  (line 72): the function has no parameters and no prior assignments,
  so both names are resolved against the module scope, where neither
  is bound.
-/

/-- Python runtime errors that the embedded code can raise. -/
inductive PyError where
  | nameError (n : String)
  | typeError
  | attributeError
  deriving DecidableEq, Repr

/-- Python values as they occur in request payloads: numbers (ints and
floats, modelled as rationals), strings, dicts with string keys, and
objects whose structure the embedding never inspects (module-level
functions, loaded models, and so on). -/
inductive PyVal where
  | num (q : ℚ)
  | str (s : String)
  | dict (entries : List (String × PyVal))
  | obj
  deriving Repr

/-- A request payload: a JSON-style dict with string keys. -/
abbrev Payload := List (String × PyVal)

/-- Python `payload.get(k, d)`: the stored value when the key is
present, the default otherwise. -/
def pyGet (p : Payload) (k : String) (d : PyVal) : PyVal :=
  match p.find? (fun kv => kv.1 == k) with
  | some kv => kv.2
  | none => d

/-- Python `v.lower()`: succeeds on strings, raises AttributeError on
any other value. -/
def pyLower (v : PyVal) : Except PyError String :=
  match v with
  | .str s => .ok s.toLower
  | _ => .error .attributeError

/-- Python `v.upper()`: succeeds on strings, raises AttributeError on
any other value. -/
def pyUpper (v : PyVal) : Except PyError String :=
  match v with
  | .str s => .ok s.toUpper
  | _ => .error .attributeError

/-- Python `v > c` against a numeric literal: succeeds on numbers,
raises TypeError on any other value. -/
def pyGtNum (v : PyVal) (c : ℚ) : Except PyError Bool :=
  match v with
  | .num q => .ok (decide (c < q))
  | _ => .error .typeError

/-- Python `v == c` against a numeric literal: never raises; values of
a different type simply compare unequal. -/
def pyEqNum (v : PyVal) (c : ℚ) : Bool :=
  match v with
  | .num q => decide (q = c)
  | _ => false

/-- Python `v / c` against a numeric literal: succeeds on numbers,
raises TypeError on any other value. -/
def pyDiv (v : PyVal) (c : ℚ) : Except PyError ℚ :=
  match v with
  | .num q => .ok (q / c)
  | _ => .error .typeError

/-- Python short-circuit `a or b` on boolean operands: the right
operand is not evaluated (so its errors are not raised) when the left
one is true. -/
def pyOr (a b : Except PyError Bool) : Except PyError Bool :=
  match a with
  | .ok true => .ok true
  | .ok false => b
  | .error e => .error e

/-- Python short-circuit `a and b` on boolean operands: the right
operand is not evaluated when the left one is false. -/
def pyAnd (a b : Except PyError Bool) : Except PyError Bool :=
  match a with
  | .ok false => .ok false
  | .ok true => b
  | .error e => .error e

/-- Python `min(a, b)` on two numbers: the left argument when the two
are equal, like Python's `min`. -/
def pyMin (a b : ℚ) : ℚ := if a ≤ b then a else b

/-- The result of the rule-based detection block: the four local
variables `is_attack`, `attack_name`, `attack_label`, `confidence`
as they stand after lines 89-121 of src/app.py. -/
structure RuleResult where
  is_attack : Bool
  attack_name : String
  attack_label : ℤ
  confidence : ℚ
  deriving DecidableEq, Repr

/-- The rule-based detection block of src/app.py (lines 82-121 of
`handle_request`, identically lines 381-419 of `trigger_payload`),
over the raw payload with Python's fallible operation semantics.
Field extraction happens in source order: `protocol.lower()` and
`state.upper()` run before any rule is evaluated, and the rule
conditions short-circuit exactly as Python's `or`/`and` do. -/
def classifyPayload (payload : Payload) : Except PyError RuleResult :=
  let rate := pyGet payload "rate" (.num 0)
  let sbytes := pyGet payload "sbytes" (.num 0)
  match pyLower (pyGet payload "protocol" (.str "tcp")) with
  | .error e => .error e
  | .ok protocol =>
  match pyUpper (pyGet payload "state" (.str "")) with
  | .error e => .error e
  | .ok state =>
  let ct_dst_ltm := pyGet payload "ct_dst_ltm" (.num 0)
  match pyOr (pyGtNum rate 200) (pyAnd (pyGtNum sbytes 50000) (pyGtNum rate 50)) with
  | .error e => .error e
  | .ok true =>
      (match pyDiv rate 1000 with
       | .error e => .error e
       | .ok rq => .ok ⟨true, "DoS", 1, pyMin 0.95 (0.70 + rq)⟩)
  | .ok false =>
  match pyOr (pyGtNum sbytes 70000)
      (pyAnd (.ok (decide (protocol = "tcp"))) (pyGtNum sbytes 50000)) with
  | .error e => .error e
  | .ok true =>
      (match pyDiv sbytes 100000 with
       | .error e => .error e
       | .ok sq => .ok ⟨true, "Exploits", 2, pyMin 0.95 (0.75 + sq)⟩)
  | .ok false =>
  match pyOr (pyGtNum ct_dst_ltm 100)
      (pyAnd (.ok (decide (state = "REQ"))) (.ok (pyEqNum (pyGet payload "dpkts" (.num 0)) 0))) with
  | .error e => .error e
  | .ok true =>
      (match pyDiv ct_dst_ltm 500 with
       | .error e => .error e
       | .ok cq => .ok ⟨true, "Reconnaissance", 4, pyMin 0.92 (0.80 + cq)⟩)
  | .ok false =>
  match pyAnd (pyGtNum (pyGet payload "dur" (.num 0)) 100) (pyGtNum sbytes 100000) with
  | .error e => .error e
  | .ok true => .ok ⟨true, "Backdoor", 6, 0.88⟩
  | .ok false => .ok ⟨false, "Normal", 0, 0.5⟩

/-- A fully-typed, normalized traffic feature record: the values of
the seven payload fields that the detection block reads, after
defaulting. -/
structure FeatureRecord where
  rate : ℚ
  sbytes : ℚ
  protocol : String
  state : String
  ct_dst_ltm : ℚ
  dpkts : ℚ
  dur : ℚ
  deriving DecidableEq, Repr

/-- The detection block of src/app.py over a typed record: the same
rule cascade as `classifyPayload`, with the fallible extraction
already done. -/
def classifyRecord (r : FeatureRecord) : RuleResult :=
  if r.rate > 200 ∨ (r.sbytes > 50000 ∧ r.rate > 50) then
    ⟨true, "DoS", 1, pyMin 0.95 (0.70 + r.rate / 1000)⟩
  else if r.sbytes > 70000 ∨ (r.protocol = "tcp" ∧ r.sbytes > 50000) then
    ⟨true, "Exploits", 2, pyMin 0.95 (0.75 + r.sbytes / 100000)⟩
  else if r.ct_dst_ltm > 100 ∨ (r.state = "REQ" ∧ r.dpkts = 0) then
    ⟨true, "Reconnaissance", 4, pyMin 0.92 (0.80 + r.ct_dst_ltm / 500)⟩
  else if r.dur > 100 ∧ r.sbytes > 100000 then
    ⟨true, "Backdoor", 6, 0.88⟩
  else
    ⟨false, "Normal", 0, 0.5⟩

/-- Numeric field of a payload with its documented default, applied
both when the key is absent and when the stored value is not a
number: the specification's normalization (section 4.1). -/
def getNum (p : Payload) (k : String) (d : ℚ) : ℚ :=
  match pyGet p k (.num d) with
  | .num q => q
  | _ => d

/-- String field of a payload with its documented default, applied
both when the key is absent and when the stored value is not a
string: the specification's normalization (section 4.1). -/
def getStr (p : Payload) (k : String) (d : String) : String :=
  match pyGet p k (.str d) with
  | .str s => s
  | _ => d

/-- The specification's normalization of a raw payload into a typed
record (section 4.1): every field that is absent or of the wrong
type is replaced by its documented default, `protocol` is lowercased
and `state` is uppercased. -/
def toRecord (p : Payload) : FeatureRecord where
  rate := getNum p "rate" 0
  sbytes := getNum p "sbytes" 0
  protocol := (getStr p "protocol" "tcp").toLower
  state := (getStr p "state" "").toUpper
  ct_dst_ltm := getNum p "ct_dst_ltm" 0
  dpkts := getNum p "dpkts" 0
  dur := getNum p "dur" 0

/-- A payload field is numeric-or-absent. -/
def numOk (p : Payload) (k : String) : Prop :=
  ∀ kv ∈ p, kv.1 = k → ∃ q, kv.2 = PyVal.num q

/-- A payload field is string-or-absent. -/
def strOk (p : Payload) (k : String) : Prop :=
  ∀ kv ∈ p, kv.1 = k → ∃ s, kv.2 = PyVal.str s

/-- Every field the detection block reads is of the type the code
expects, when present at all. -/
def wellTyped (p : Payload) : Prop :=
  numOk p "rate" ∧ numOk p "sbytes" ∧ strOk p "protocol" ∧ strOk p "state" ∧
    numOk p "ct_dst_ltm" ∧ numOk p "dpkts" ∧ numOk p "dur"

/-- Boolean test for a numeric payload value. -/
def isNumV : PyVal → Bool
  | .num _ => true
  | _ => false

/-- Boolean test for a string payload value. -/
def isStrV : PyVal → Bool
  | .str _ => true
  | _ => false

instance (p : Payload) (k : String) : Decidable (numOk p k) :=
  decidable_of_iff (∀ kv ∈ p, kv.1 = k → isNumV kv.2 = true) (by
    constructor
    · intro h kv hm hk
      have hb := h kv hm hk
      cases hv : kv.2 <;> rw [hv] at hb <;> simp [isNumV] at hb ⊢
    · intro h kv hm hk
      obtain ⟨q, hq⟩ := h kv hm hk
      rw [hq]; rfl)

instance (p : Payload) (k : String) : Decidable (strOk p k) :=
  decidable_of_iff (∀ kv ∈ p, kv.1 = k → isStrV kv.2 = true) (by
    constructor
    · intro h kv hm hk
      have hb := h kv hm hk
      cases hv : kv.2 <;> rw [hv] at hb <;> simp [isStrV] at hb ⊢
    · intro h kv hm hk
      obtain ⟨s, hs⟩ := h kv hm hk
      rw [hs]; rfl)

instance (p : Payload) : Decidable (wellTyped p) := by
  unfold wellTyped; infer_instance

/-!
## Mitigation ledger

`is_blocked` and `mitigate` are imported by src/app.py from
`mitigation/actions.py`, a module that is not among the sources at
hand; both are modelled from the specification.
-/

/-- Mitigation actions (specification, section 3: `last_action`
ranges over None, Monitor, Throttle, Block, EscalatedBlock). -/
inductive MitAction where
  | noAction
  | monitor
  | throttle
  | block
  | escalatedBlock
  deriving DecidableEq, Repr

/-- Modelled from the spec: a per-source ledger entry of
`mitigation/actions.py` (absent from the sources), specification
section 3 — block status, violation count and last action. -/
structure LedgerEntry where
  blocked : Bool
  violation_count : ℕ
  last_action : MitAction
  deriving DecidableEq, Repr

/-- The entry a fresh source starts from (specification, section 4.3:
`get_or_create` creates `blocked=false, violation_count=0,
last_action=None`). -/
def cleanEntry : LedgerEntry := ⟨false, 0, .noAction⟩

/-- The mitigation ledger: per-source-address mitigation state. -/
abbrev Ledger := List (String × LedgerEntry)

/-- Modelled from the spec: `get_or_create(address)` of
`mitigation/actions.py` (absent from the sources), specification
section 4.3 — the stored entry, or a clean one for unseen
addresses. -/
def getEntry (st : Ledger) (a : String) : LedgerEntry :=
  match st.find? (fun kv => kv.1 == a) with
  | some kv => kv.2
  | none => cleanEntry

/-- Store an entry for an address, replacing any previous one. -/
def setEntry (st : Ledger) (a : String) (e : LedgerEntry) : Ledger :=
  (a, e) :: st.filter (fun kv => kv.1 != a)

/-- Modelled from the spec: `is_blocked(address)` of
`mitigation/actions.py` (absent from the sources), specification
section 4.3 — a pure read that is false for unseen addresses. -/
def is_blocked (st : Ledger) (a : String) : Bool :=
  (getEntry st a).blocked

/-- The decision returned by the mitigation policy (specification,
section 3: MitigationDecision). -/
structure MitigationResult where
  action : MitAction
  source_address : String
  deriving DecidableEq, Repr

/-- Modelled from the spec: `mitigate(src_ip, attack_label)` of
`mitigation/actions.py` (absent from the sources), specification
section 4.4 — a non-Normal classification (label other than 0)
increments the violation count and blocks the source, with action
Block on the first violation and EscalatedBlock when the source was
already blocked; Normal and unknown categories are non-violations
and leave the ledger unchanged. -/
def mitigate (st : Ledger) (src_ip : String) (attack_label : ℤ) :
    MitigationResult × Ledger :=
  let e := getEntry st src_ip
  if attack_label = 0 then
    (⟨e.last_action, src_ip⟩, st)
  else
    let act := if e.blocked then MitAction.escalatedBlock else MitAction.block
    (⟨act, src_ip⟩,
      setEntry st src_ip ⟨true, e.violation_count + 1, act⟩)

/-- The externally visible outcome of one decision call: the BLOCKED
short-circuit response, a THREAT response carrying the classification
and the mitigation decision, or a NORMAL response. -/
inductive Decision where
  | blocked
  | threat (attack_name : String) (attack_label : ℤ) (confidence : ℚ)
      (mitigation : MitigationResult)
  | normal
  deriving DecidableEq, Repr

/-- The decision orchestrator of src/app.py — the body shared by
`handle_request` (lines 74-146) and `trigger_payload` (lines
374-459): if the source is already blocked, answer BLOCKED at once
without touching the payload; otherwise run the detection block and
either mitigate and answer THREAT, or answer NORMAL leaving the
ledger untouched. -/
def decideRequest (src_ip : String) (payload : Payload) (st : Ledger) :
    Except PyError (Decision × Ledger) :=
  if is_blocked st src_ip then
    .ok (.blocked, st)
  else
    match classifyPayload payload with
    | .error e => .error e
    | .ok r =>
      if r.is_attack then
        let m := mitigate st src_ip r.attack_label
        .ok (.threat r.attack_name r.attack_label r.confidence m.1, m.2)
      else
        .ok (.normal, st)

/-!
## The broken public endpoint

`handle_request` (src/app.py line 71) takes no parameters, and its
first statement, line 72, is `payload["src_ip"] = src_ip`. Python
resolves each bare name against the local scope, then the enclosing
module scope, then the builtins, and raises NameError when the name
is nowhere bound; the right-hand side of an assignment is evaluated
before its target.
-/

/-- The names bound in the module scope of src/app.py: the imports of
lines 6-22 and the module-level definitions and `def` statements.
Neither "payload" nor "src_ip" is among them. -/
def app_module_names : List String :=
  ["Flask", "request", "jsonify", "send_from_directory", "joblib",
   "pickle", "os", "sys", "extract_features", "extract_simple_features",
   "log_activity", "log_threat", "log_mitigation", "get_recent_logs",
   "mitigate", "is_blocked", "get_mitigation_stats", "add_device",
   "get_all_devices", "get_device", "update_device", "delete_device",
   "update_device_status", "get_statistics", "get_device_credentials",
   "trigger_real_payload", "app", "anomaly_model", "rf_model",
   "models_loaded", "home", "analysis", "demo", "health_check",
   "handle_request", "get_stats", "serve_frontend", "alerts_page",
   "users_page", "instance_detail_page", "list_devices",
   "register_device", "get_device_info", "remove_device",
   "update_status", "device_statistics", "trigger_payload",
   "get_device_activity", "get_device_threats", "get_device_mitigations",
   "generate_test_payload", "serve_static_files"]

/-- The Python builtins referenced anywhere in src/app.py. "payload"
and "src_ip" are of course not builtins. -/
def python_builtin_names : List String :=
  ["print", "min", "int", "str", "len", "Exception", "True", "False",
   "None"]

/-- Python name resolution at a point with the given local names in
scope, against src/app.py's module scope and the builtins: a bound
name denotes some object (never inspected on any reachable path of
the functions modelled here), an unbound one raises NameError. -/
def resolveName (locals : List String) (n : String) : Except PyError PyVal :=
  if n ∈ locals ∨ n ∈ app_module_names ∨ n ∈ python_builtin_names then
    .ok .obj
  else
    .error (.nameError n)

/-- The local names bound at entry to `handle_request` (line 72): the
function has no parameters and line 72 is its first statement, so
none. -/
def handle_request_locals : List String := []

/-- The `/api/request` endpoint, src/app.py lines 71-146. Line 72
evaluates the name `src_ip`, then the name `payload`, before the
`try` block of line 81 opens, so a NameError here propagates out of
the call unhandled. Were both names bound, the rest of the body is
the decision orchestrator applied to the dict `payload` would denote,
keyed by the string `src_ip` would denote. -/
def handle_request (st : Ledger) : Except PyError (Decision × Ledger) :=
  match resolveName handle_request_locals "src_ip" with
  | .error e => .error e
  | .ok srcv =>
  match resolveName handle_request_locals "payload" with
  | .error e => .error e
  | .ok pv =>
    match pv, srcv with
    | .dict entries, .str s => decideRequest s (("src_ip", .str s) :: entries) st
    | _, _ => .error .typeError

/-- The documented per-rule confidence ceiling, keyed by the category
string the detection block produces: 0.95 for DoS and Exploits, 0.92
for Reconnaissance, 0.88 (the fixed value) for Backdoor, 0.50 (the
fixed value) for Normal. -/
def confidenceCeiling (category : String) : ℚ :=
  if category = "DoS" then 0.95
  else if category = "Exploits" then 0.95
  else if category = "Reconnaissance" then 0.92
  else if category = "Backdoor" then 0.88
  else 0.5

/-- The classification content of a decision outcome: the category,
label and confidence carried by a THREAT response, `none` for the
BLOCKED and NORMAL responses, and the propagated error otherwise. -/
def classificationOf (x : Except PyError (Decision × Ledger)) :
    Except PyError (Option (String × ℤ × ℚ)) :=
  match x with
  | .error e => .error e
  | .ok (.threat n l c _, _) => .ok (some (n, l, c))
  | .ok (.blocked, _) => .ok none
  | .ok (.normal, _) => .ok none

instance {ε α : Type} [DecidableEq ε] [DecidableEq α] : DecidableEq (Except ε α) := fun a b =>
  match a, b with
  | .error e, .error f => decidable_of_iff (e = f) (by simp)
  | .error _, .ok _ => isFalse (by simp)
  | .ok _, .error _ => isFalse (by simp)
  | .ok x, .ok y => decidable_of_iff (x = y) (by simp)

/-!
## Helper lemmas
-/

theorem pyMin_eq_min (a b : ℚ) : pyMin a b = min a b := (min_def a b).symm

theorem pyMin_le_left (a b : ℚ) : pyMin a b ≤ a := by
  rw [pyMin_eq_min]; exact min_le_left a b

theorem pyMin_eq_left {a b : ℚ} (h : a ≤ b) : pyMin a b = a := if_pos h

theorem pyOr_ok_ok (a b : Bool) :
    pyOr (.ok a) (.ok b) = .ok (a || b) := by
  cases a <;> rfl

theorem pyAnd_ok_ok (a b : Bool) :
    pyAnd (.ok a) (.ok b) = .ok (a && b) := by
  cases a <;> rfl

theorem pyGet_num_of_numOk (p : Payload) (k : String) (d : ℚ) (h : numOk p k) :
    pyGet p k (.num d) = .num (getNum p k d) := by
  cases hf : p.find? (fun kv => kv.1 == k) with
  | none => simp [pyGet, getNum, hf]
  | some kv =>
    have hmem : kv ∈ p := List.mem_of_find?_eq_some hf
    have hkey : kv.1 = k := by simpa using List.find?_some hf
    obtain ⟨q, hq⟩ := h kv hmem hkey
    simp [pyGet, getNum, hf, hq]

theorem pyGet_str_of_strOk (p : Payload) (k : String) (d : String) (h : strOk p k) :
    pyGet p k (.str d) = .str (getStr p k d) := by
  cases hf : p.find? (fun kv => kv.1 == k) with
  | none => simp [pyGet, getStr, hf]
  | some kv =>
    have hmem : kv ∈ p := List.mem_of_find?_eq_some hf
    have hkey : kv.1 = k := by simpa using List.find?_some hf
    obtain ⟨s, hs⟩ := h kv hmem hkey
    simp [pyGet, getStr, hf, hs]
theorem decide_orand_true {A B C : Prop} [Decidable A] [Decidable B] [Decidable C]
    (h : A ∨ B ∧ C) : (decide A || (decide B && decide C)) = true := by
  rcases h with h | ⟨hb, hc⟩
  · simp [h]
  · simp [hb, hc]

theorem decide_orand_false {A B C : Prop} [Decidable A] [Decidable B] [Decidable C]
    (h : ¬(A ∨ B ∧ C)) : (decide A || (decide B && decide C)) = false := by
  rw [Bool.eq_false_iff]
  intro hT
  exact h (by simpa [Bool.or_eq_true, Bool.and_eq_true, decide_eq_true_eq] using hT)

theorem decide_and_true {A B : Prop} [Decidable A] [Decidable B]
    (h : A ∧ B) : (decide A && decide B) = true := by
  simp [h.1, h.2]

theorem decide_and_false {A B : Prop} [Decidable A] [Decidable B]
    (h : ¬(A ∧ B)) : (decide A && decide B) = false := by
  rw [Bool.eq_false_iff]
  intro hT
  exact h (by simpa [Bool.and_eq_true, decide_eq_true_eq] using hT)

theorem classifyPayload_wellTyped (p : Payload) (h : wellTyped p) :
    classifyPayload p = .ok (classifyRecord (toRecord p)) := by
  obtain ⟨h1, h2, h3, h4, h5, h6, h7⟩ := h
  have e1 := pyGet_num_of_numOk p "rate" 0 h1
  have e2 := pyGet_num_of_numOk p "sbytes" 0 h2
  have e3 := pyGet_str_of_strOk p "protocol" "tcp" h3
  have e4 := pyGet_str_of_strOk p "state" "" h4
  have e5 := pyGet_num_of_numOk p "ct_dst_ltm" 0 h5
  have e6 := pyGet_num_of_numOk p "dpkts" 0 h6
  have e7 := pyGet_num_of_numOk p "dur" 0 h7
  have heq : toRecord p = ⟨getNum p "rate" 0, getNum p "sbytes" 0,
      (getStr p "protocol" "tcp").toLower, (getStr p "state" "").toUpper,
      getNum p "ct_dst_ltm" 0, getNum p "dpkts" 0, getNum p "dur" 0⟩ := rfl
  simp only [classifyPayload, classifyRecord, heq, e1, e2, e3, e4, e5, e6, e7,
    pyLower, pyUpper, pyGtNum, pyEqNum, pyDiv, pyOr_ok_ok, pyAnd_ok_ok, gt_iff_lt]
  by_cases hD : (200:ℚ) < getNum p "rate" 0 ∨
      ((50000:ℚ) < getNum p "sbytes" 0 ∧ (50:ℚ) < getNum p "rate" 0)
  · rw [decide_orand_true hD, if_pos hD]
  · rw [decide_orand_false hD, if_neg hD]
    by_cases hE : (70000:ℚ) < getNum p "sbytes" 0 ∨
        ((getStr p "protocol" "tcp").toLower = "tcp" ∧ (50000:ℚ) < getNum p "sbytes" 0)
    · rw [decide_orand_true hE, if_pos hE]
    · rw [decide_orand_false hE, if_neg hE]
      by_cases hR : (100:ℚ) < getNum p "ct_dst_ltm" 0 ∨
          ((getStr p "state" "").toUpper = "REQ" ∧ getNum p "dpkts" 0 = 0)
      · rw [decide_orand_true hR, if_pos hR]
      · rw [decide_orand_false hR, if_neg hR]
        by_cases hB : (100:ℚ) < getNum p "dur" 0 ∧ (100000:ℚ) < getNum p "sbytes" 0
        · rw [decide_and_true hB, if_pos hB]
        · rw [decide_and_false hB, if_neg hB]
/-- C1: every call to `handle_request`, the public POST /api/request
entry point, fails with a NameError raised by its first statement
(line 72 references `src_ip`, which is never assigned), before the
blocked-check, the classification, or any mitigation can run:
whatever the ledger state, the call produces exactly this unhandled
error and never a decision or a ledger update. -/
theorem C1_handle_request_always_name_error :
    ∀ st : Ledger, handle_request st = .error (.nameError "src_ip") := by
  intro st
  with_unfolding_all rfl

/-- C2 counterexample: for the input with sbytes 80000 and protocol
"tcp", the detection block returns the category string "Exploits",
which is not the documented name "Exploit". -/
theorem C2_counterexample_category_is_exploits :
    classifyPayload [("sbytes", .num 80000), ("protocol", .str "tcp")] =
      .ok ⟨true, "Exploits", 2, 0.95⟩ ∧ "Exploits" ≠ "Exploit" := by
  constructor
  · with_unfolding_all decide
  · decide

/-- C2 amended: for the input with sbytes 80000 and protocol "tcp"
(all other fields absent) the detection block marks an attack with
numeric label 2 and confidence min(0.95, 0.75 + 0.8) = 0.95 exactly,
but the category string it returns is "Exploits", which is not among
the five documented category names. -/
theorem C2_amended_exploit_scenario :
    classifyPayload [("sbytes", .num 80000), ("protocol", .str "tcp")] =
      .ok ⟨true, "Exploits", 2, pyMin 0.95 (0.75 + 0.8)⟩ ∧
    pyMin 0.95 (0.75 + 0.8) = 0.95 ∧
    "Exploits" ∉ ["Normal", "DoS", "Exploit", "Reconnaissance", "Backdoor"] := by
  refine ⟨?_, ?_, ?_⟩
  · with_unfolding_all decide
  · with_unfolding_all decide
  · decide

/-- C3 counterexample: the input whose `protocol` field is the number
5 (wrong type) is not degraded to the default "tcp": line 85's
`.lower()` raises AttributeError, so this malformed input produces an
error instead of the (Normal) classification that the documented
normalization would have produced. -/
theorem C3_counterexample_wrong_type_errors :
    classifyPayload [("protocol", .num 5)] = .error .attributeError ∧
    classifyRecord (toRecord [("protocol", .num 5)]) = ⟨false, "Normal", 0, 0.5⟩ := by
  constructor
  · with_unfolding_all decide
  · with_unfolding_all decide

theorem getEntry_setEntry (st : Ledger) (a : String) (e : LedgerEntry) :
    getEntry (setEntry st a e) a = e := by
  simp [getEntry, setEntry, List.find?]

/-- C3 amended: absent fields are indeed replaced by their documented
defaults, and classification never fails, on inputs whose present
fields are of the expected types: for every payload whose `rate`,
`sbytes`, `ct_dst_ltm`, `dpkts` and `dur` are numbers and whose
`protocol` and `state` are strings whenever present, the detection
block succeeds and agrees with the rule cascade applied to the
record obtained by the documented defaulting. Wrong-typed present
fields, however, are not defaulted (see the counterexample). -/
theorem C3_amended_defaults_for_wellTyped :
    ∀ p : Payload, wellTyped p →
      classifyPayload p = .ok (classifyRecord (toRecord p)) :=
  classifyPayload_wellTyped

theorem C3_amended_defaults_for_wellTyped_witness :
    wellTyped [("rate", .num 5), ("protocol", .str "TCP")] ∧
    classifyPayload [("rate", .num 5), ("protocol", .str "TCP")] =
      .ok (classifyRecord (toRecord [("rate", .num 5), ("protocol", .str "TCP")])) :=
  ⟨by with_unfolding_all decide,
   C3_amended_defaults_for_wellTyped _ (by with_unfolding_all decide)⟩

/-- C4: the detection rules are evaluated in the strict priority
order DoS, Exploit, Reconnaissance, Backdoor, Normal-as-default, and
the first matching rule alone determines the result; in particular a
record satisfying the DoS condition classifies as DoS whatever other
conditions it also satisfies. -/
theorem C4_rule_priority_order :
    ∀ r : FeatureRecord,
      ((r.rate > 200 ∨ (r.sbytes > 50000 ∧ r.rate > 50)) →
        (classifyRecord r).attack_name = "DoS" ∧ (classifyRecord r).attack_label = 1) ∧
      (¬(r.rate > 200 ∨ (r.sbytes > 50000 ∧ r.rate > 50)) →
        (r.sbytes > 70000 ∨ (r.protocol = "tcp" ∧ r.sbytes > 50000)) →
        (classifyRecord r).attack_name = "Exploits") ∧
      (¬(r.rate > 200 ∨ (r.sbytes > 50000 ∧ r.rate > 50)) →
        ¬(r.sbytes > 70000 ∨ (r.protocol = "tcp" ∧ r.sbytes > 50000)) →
        (r.ct_dst_ltm > 100 ∨ (r.state = "REQ" ∧ r.dpkts = 0)) →
        (classifyRecord r).attack_name = "Reconnaissance") ∧
      (¬(r.rate > 200 ∨ (r.sbytes > 50000 ∧ r.rate > 50)) →
        ¬(r.sbytes > 70000 ∨ (r.protocol = "tcp" ∧ r.sbytes > 50000)) →
        ¬(r.ct_dst_ltm > 100 ∨ (r.state = "REQ" ∧ r.dpkts = 0)) →
        (r.dur > 100 ∧ r.sbytes > 100000) →
        (classifyRecord r).attack_name = "Backdoor") := by
  intro r
  refine ⟨fun h1 => ?_, fun h1 h2 => ?_, fun h1 h2 h3 => ?_, fun h1 h2 h3 h4 => ?_⟩
  · unfold classifyRecord; rw [if_pos h1]; exact ⟨rfl, rfl⟩
  · unfold classifyRecord; rw [if_neg h1, if_pos h2]
  · unfold classifyRecord; rw [if_neg h1, if_neg h2, if_pos h3]
  · unfold classifyRecord; rw [if_neg h1, if_neg h2, if_neg h3, if_pos h4]

theorem C4_rule_priority_order_witness :
    ((⟨300, 80000, "tcp", "CON", 0, 1, 0⟩ : FeatureRecord).rate > 200 ∨
      ((⟨300, 80000, "tcp", "CON", 0, 1, 0⟩ : FeatureRecord).sbytes > 50000 ∧
        (⟨300, 80000, "tcp", "CON", 0, 1, 0⟩ : FeatureRecord).rate > 50)) ∧
    (classifyRecord ⟨300, 80000, "tcp", "CON", 0, 1, 0⟩).attack_name = "DoS" :=
  ⟨by with_unfolding_all decide,
   ((C4_rule_priority_order ⟨300, 80000, "tcp", "CON", 0, 1, 0⟩).1
     (by with_unfolding_all decide)).1⟩

/-- C5: a record failing the DoS condition (rate at most 200 and not
both sent bytes above 50000 and rate above 50) and failing the
Exploit, Reconnaissance and Backdoor conditions classifies as Normal
with label 0 and confidence exactly 0.50; and for the scenario-D
input (rate 5, sbytes 500) from an unblocked source, the decision is
NORMAL with the ledger returned unchanged and no mitigation decision
in the response. -/
theorem C5_normal_default :
    (∀ r : FeatureRecord,
      ¬(r.rate > 200 ∨ (r.sbytes > 50000 ∧ r.rate > 50)) →
      ¬(r.sbytes > 70000 ∨ (r.protocol = "tcp" ∧ r.sbytes > 50000)) →
      ¬(r.ct_dst_ltm > 100 ∨ (r.state = "REQ" ∧ r.dpkts = 0)) →
      ¬(r.dur > 100 ∧ r.sbytes > 100000) →
      classifyRecord r = ⟨false, "Normal", 0, 0.5⟩) ∧
    (∀ (st : Ledger) (a : String), is_blocked st a = false →
      decideRequest a [("rate", .num 5), ("sbytes", .num 500)] st = .ok (.normal, st)) := by
  constructor
  · intro r h1 h2 h3 h4
    unfold classifyRecord
    rw [if_neg h1, if_neg h2, if_neg h3, if_neg h4]
  · intro st a h
    have hc : classifyPayload [("rate", .num 5), ("sbytes", .num 500)] =
        .ok ⟨false, "Normal", 0, 0.5⟩ := by with_unfolding_all decide
    simp [decideRequest, h, hc]

theorem C5_normal_default_witness :
    classifyRecord ⟨5, 500, "tcp", "CON", 3, 10, 1⟩ = ⟨false, "Normal", 0, 0.5⟩ ∧
    decideRequest "10.0.0.5" [("rate", .num 5), ("sbytes", .num 500)] [] = .ok (.normal, []) :=
  ⟨C5_normal_default.1 ⟨5, 500, "tcp", "CON", 3, 10, 1⟩
      (by with_unfolding_all decide) (by with_unfolding_all decide)
      (by with_unfolding_all decide) (by with_unfolding_all decide),
   C5_normal_default.2 [] "10.0.0.5" (by with_unfolding_all decide)⟩

/-- C6: every confidence the detection block produces is at most its
per-category ceiling (0.95 for DoS and Exploits, 0.92 for
Reconnaissance, 0.88 for Backdoor, 0.50 for Normal); a matched DoS
rule clamps with min only, from above; at rate 2000 the DoS
confidence is exactly 0.95, not 2.70; and every threshold is a
strict comparison: the record sitting exactly on the boundaries
(rate 200, sbytes 50000, ct_dst_ltm 100, dur 100) matches no rule. -/
theorem C6_confidence_clamped :
    (∀ r : FeatureRecord,
      (classifyRecord r).confidence ≤ confidenceCeiling (classifyRecord r).attack_name) ∧
    (∀ r : FeatureRecord, (r.rate > 200 ∨ (r.sbytes > 50000 ∧ r.rate > 50)) →
      (classifyRecord r).confidence = pyMin 0.95 (0.70 + r.rate / 1000)) ∧
    classifyRecord ⟨2000, 0, "udp", "", 0, 1, 0⟩ = ⟨true, "DoS", 1, 0.95⟩ ∧
    confidenceCeiling "Reconnaissance" = 0.92 ∧
    classifyRecord ⟨0, 0, "udp", "REQ", 150, 1, 0⟩ = ⟨true, "Reconnaissance", 4, 0.92⟩ ∧
    classifyRecord ⟨200, 50000, "tcp", "", 100, 1, 100⟩ = ⟨false, "Normal", 0, 0.5⟩ := by
  refine ⟨?_, ?_, ?_, ?_, ?_, ?_⟩
  · intro r
    unfold classifyRecord confidenceCeiling
    split_ifs <;> simp_all <;> exact pyMin_le_left _ _
  · intro r h1
    unfold classifyRecord
    rw [if_pos h1]
  · with_unfolding_all decide
  · with_unfolding_all decide
  · with_unfolding_all decide
  · with_unfolding_all decide

theorem C6_confidence_clamped_witness :
    (classifyRecord ⟨2000, 0, "udp", "", 0, 1, 0⟩).confidence ≤
      confidenceCeiling (classifyRecord ⟨2000, 0, "udp", "", 0, 1, 0⟩).attack_name ∧
    (classifyRecord ⟨2000, 0, "udp", "", 0, 1, 0⟩).confidence =
      pyMin 0.95 (0.70 + (⟨2000, 0, "udp", "", 0, 1, 0⟩ : FeatureRecord).rate / 1000) :=
  ⟨C6_confidence_clamped.1 ⟨2000, 0, "udp", "", 0, 1, 0⟩,
   C6_confidence_clamped.2.1 ⟨2000, 0, "udp", "", 0, 1, 0⟩ (by with_unfolding_all decide)⟩

/-- C7: once a source address has a blocked ledger entry, every
decision call for that address — with any payload whatsoever,
including payloads whose classification would raise — returns the
BLOCKED response with the ledger returned exactly as it was: the
violation count is untouched and classification is never re-run
(the result does not depend on the payload at all). -/
theorem C7_blocked_short_circuit :
    ∀ (st : Ledger) (a : String) (p : Payload),
      is_blocked st a = true →
      decideRequest a p st = .ok (.blocked, st) := by
  intro st a p h
  simp [decideRequest, h]

theorem C7_blocked_short_circuit_witness :
    decideRequest "9.9.9.9" [("protocol", .num 5)]
        [("9.9.9.9", ⟨true, 1, .block⟩)] =
      .ok (.blocked, [("9.9.9.9", ⟨true, 1, .block⟩)]) :=
  C7_blocked_short_circuit [("9.9.9.9", ⟨true, 1, .block⟩)] "9.9.9.9"
    [("protocol", .num 5)] (by with_unfolding_all decide)

/-- C8: the mitigation state machine escalates monotonically: from a
clean entry, a first violation yields action Block and a blocked
entry with violation count 1 — Blocked, not EscalatedBlocked — and a
second violation for the same source yields action EscalatedBlock
with violation count 2. -/
theorem C8_escalation_monotone :
    ∀ (st : Ledger) (a : String) (l1 l2 : ℤ),
      getEntry st a = cleanEntry → l1 ≠ 0 → l2 ≠ 0 →
      (mitigate st a l1).1.action = .block ∧
      (mitigate st a l1).1.action ≠ .escalatedBlock ∧
      getEntry (mitigate st a l1).2 a = ⟨true, 1, .block⟩ ∧
      (mitigate (mitigate st a l1).2 a l2).1.action = .escalatedBlock ∧
      getEntry (mitigate (mitigate st a l1).2 a l2).2 a = ⟨true, 2, .escalatedBlock⟩ := by
  intro st a l1 l2 hclean h1 h2
  have s1 : mitigate st a l1 =
      (⟨.block, a⟩, setEntry st a ⟨true, 1, .block⟩) := by
    simp [mitigate, hclean, cleanEntry, h1]
  have s2 : mitigate (setEntry st a ⟨true, 1, .block⟩) a l2 =
      (⟨.escalatedBlock, a⟩,
        setEntry (setEntry st a ⟨true, 1, .block⟩) a ⟨true, 2, .escalatedBlock⟩) := by
    simp [mitigate, getEntry_setEntry, h2]
  rw [s1]
  refine ⟨rfl, by simp, getEntry_setEntry _ _ _, ?_, ?_⟩
  · rw [s2]
  · rw [s2, getEntry_setEntry]

theorem C8_escalation_monotone_witness :
    getEntry [] "5.5.5.5" = cleanEntry ∧
    (mitigate [] "5.5.5.5" 1).1.action = .block ∧
    (mitigate (mitigate [] "5.5.5.5" 1).2 "5.5.5.5" 4).1.action = .escalatedBlock := by
  have h := C8_escalation_monotone [] "5.5.5.5" 1 4 (by with_unfolding_all decide)
    (by decide) (by decide)
  exact ⟨by with_unfolding_all decide, h.1, h.2.2.2.1⟩

/-- C9: categorization is deterministic and model-free: for an
unblocked source the classification content of the decision (the
category, label and confidence of a THREAT outcome, or none for
NORMAL) is a pure function of the payload alone — it equals the rule
cascade's own output and is therefore identical across any two
decision calls with the same record, whatever the rest of the two
ledger states. -/
theorem C9_classification_deterministic :
    (∀ (a : String) (p : Payload) (st : Ledger), is_blocked st a = false →
      classificationOf (decideRequest a p st) =
        (classifyPayload p).map
          (fun r => if r.is_attack then some (r.attack_name, r.attack_label, r.confidence)
            else none)) ∧
    (∀ (a : String) (p : Payload) (st1 st2 : Ledger),
      is_blocked st1 a = false → is_blocked st2 a = false →
      classificationOf (decideRequest a p st1) = classificationOf (decideRequest a p st2)) := by
  have H : ∀ (a : String) (p : Payload) (st : Ledger), is_blocked st a = false →
      classificationOf (decideRequest a p st) =
        (classifyPayload p).map
          (fun r => if r.is_attack then some (r.attack_name, r.attack_label, r.confidence)
            else none) := by
    intro a p st h
    cases hc : classifyPayload p with
    | error e => simp [decideRequest, classificationOf, h, hc, Except.map]
    | ok r =>
      cases hr : r.is_attack <;>
        simp [decideRequest, classificationOf, h, hc, hr, Except.map, mitigate]
  exact ⟨H, fun a p st1 st2 h1 h2 => (H a p st1 h1).trans (H a p st2 h2).symm⟩

theorem C9_classification_deterministic_witness :
    classificationOf (decideRequest "10.0.0.9" [("rate", .num 300)] []) =
      classificationOf (decideRequest "10.0.0.9" [("rate", .num 300)]
        [("8.8.8.8", ⟨true, 3, .escalatedBlock⟩)]) :=
  C9_classification_deterministic.2 "10.0.0.9" [("rate", .num 300)] []
    [("8.8.8.8", ⟨true, 3, .escalatedBlock⟩)]
    (by with_unfolding_all decide) (by with_unfolding_all decide)

/-- C10: whenever the Exploit branch is reached (the DoS condition
fails and either sent bytes exceed 70000, or the protocol is "tcp"
and sent bytes exceed 50000), the branch condition itself forces
0.75 + sbytes/100000 above 1.25, so the min clamp binds and the
confidence is exactly 0.95, regardless of the byte count. -/
theorem C10_exploit_confidence_is_ceiling :
    ∀ r : FeatureRecord,
      ¬(r.rate > 200 ∨ (r.sbytes > 50000 ∧ r.rate > 50)) →
      (r.sbytes > 70000 ∨ (r.protocol = "tcp" ∧ r.sbytes > 50000)) →
      (classifyRecord r).attack_name = "Exploits" ∧
      (classifyRecord r).confidence = 0.95 := by
  intro r h1 h2
  unfold classifyRecord
  rw [if_neg h1, if_pos h2]
  refine ⟨rfl, ?_⟩
  have hs : (50000:ℚ) < r.sbytes := by
    rcases h2 with h | ⟨_, h⟩
    · linarith
    · exact h
  have hdiv : (0.5:ℚ) < r.sbytes / 100000 := by
    rw [lt_div_iff₀ (by norm_num : (0:ℚ) < 100000)]
    linarith
  have hge : (0.95:ℚ) ≤ 0.75 + r.sbytes / 100000 := by linarith
  exact pyMin_eq_left hge

theorem C10_exploit_confidence_is_ceiling_witness :
    (classifyRecord ⟨0, 50001, "tcp", "", 0, 1, 0⟩).attack_name = "Exploits" ∧
    (classifyRecord ⟨0, 50001, "tcp", "", 0, 1, 0⟩).confidence = 0.95 :=
  C10_exploit_confidence_is_ceiling ⟨0, 50001, "tcp", "", 0, 1, 0⟩
    (by with_unfolding_all decide) (by with_unfolding_all decide)
